import Mathlib

/-!
Verification of the Solar_battery_charge_forecast engine.

The definitions below are a shallow embedding of the pure computational
core of `addon/full_forecast_and_reccomendation.py` (and the identical
register-encoding logic of `addon/simple_battery_test.py`):

* `calculate_charge_rate` — the charge-window rate calculator, with times
  expressed in minutes from midnight of the current calendar date and
  Python's banker-style `round` modelled by `pyRound`;
* `dailyEnergy` — the telemetry aggregator's per-day energy integration
  (pandas `diff` of consecutive timestamps, energy bucketed at the date of
  the second reading, first reading contributing `fillna(0)`);
* `linFit` / `lrPredict` — the scikit-learn least-squares fit of
  `Power_Need` on `DayOfWeek` with intercept (minimum-norm solution when
  the centred design matrix is zero) and its prediction;
* `computeTotalDeficit` — the deficit-calculation block, guarded by the
  fail-fast efficiency check;
* `force_charge_inverter_writes` — the register write plan of
  `force_charge_inverter`, with the max-rate clamp and the 40355 power
  encoding;
* `chargeControl` — the decision block that compares `should_charge`
  against the persisted state and performs inverter actions and state
  saves;
* `load_charging_state` / `save_charging_state` — the charging state
  store over an abstract file state.
-/

/-- Python's `round` on an exact rational: round half to even. -/
def pyRound (q : ℚ) : ℤ :=
  let f : ℤ := ⌊q⌋
  let r : ℚ := q - f
  if r < 1/2 then f
  else if r > 1/2 then f + 1
  else if f % 2 = 0 then f else f + 1

/-- Embedding of `calculate_charge_rate`.  `windowStart`/`windowEnd` are the
parsed `%H:%M` window bounds in minutes (so in `[0, 1440)`), `current` is the
current wall-clock time in minutes from midnight of the current calendar
date, and `deficit` is in kWh.  Mirrors the source line by line: anchor both
bounds to today, roll the end over midnight when `end < start`, roll the
whole window one day forward when `current > end`, then use `[start, end]`
when before the start and `[current, end]` otherwise, subtract the 1-hour
margin unless that leaves under an hour, and divide. -/
def calculate_charge_rate (deficit : ℚ) (windowStart windowEnd : ℕ)
    (current : ℚ) : ℤ :=
  let start0 : ℚ := windowStart
  let end0 : ℚ := windowEnd
  let end1 : ℚ := if end0 < start0 then end0 + 1440 else end0
  let start1 : ℚ := if current > end1 then start0 + 1440 else start0
  let end2 : ℚ := if current > end1 then end1 + 1440 else end1
  let startT : ℚ := if current < start1 then start1 else current
  let remaining0 : ℚ := (end2 - startT) / 60 - 1
  let remaining : ℚ := if remaining0 < 1 then (end2 - startT) / 60 else remaining0
  if remaining ≤ 0 then 0
  else max (pyRound (deficit * 1000 / remaining)) 0

/-- One telemetry reading of a single entity: timestamp in seconds since
the epoch and the numeric sensor state (power in W). -/
structure Reading where
  time : ℚ
  state : ℚ

/-- Calendar date of a reading, as a day index (pandas `dt.date`). -/
def dateOf (r : Reading) : ℤ := ⌊r.time / 86400⌋

/-- Energy rows after the first reading: pandas
`Time_Diff = Time.diff()` and `Energy_Wh = State * Time_Diff / 3600`,
each row keyed by the date of the *second* reading of the pair. -/
def contribsAux (prev : Reading) : List Reading → List (ℤ × ℚ)
  | [] => []
  | r :: rest => (dateOf r, r.state * (r.time - prev.time) / 3600) :: contribsAux r rest

/-- Full energy-row list for one entity sorted by time; the first reading
gets `Time_Diff.fillna(0)`, hence energy 0. -/
def energyContribs : List Reading → List (ℤ × ℚ)
  | [] => []
  | r :: rest => (dateOf r, 0) :: contribsAux r rest

/-- Daily integrated energy: `group.groupby("Date")["Energy_Wh"].sum()`
restricted to one date bucket. -/
def dailyEnergy (rs : List Reading) (d : ℤ) : ℚ :=
  (((energyContribs rs).filter (fun p => p.1 == d)).map Prod.snd).sum

/-- Last element of a list, with a default for the empty list. -/
def lastOr (d : Reading) : List Reading → Reading
  | [] => d
  | x :: xs => lastOr x xs

/-- Least-squares fit with intercept of y on x over `(x, y)` pairs, as
`sklearn.linear_model.LinearRegression().fit` computes it: centre both
columns, solve by least squares (the minimum-norm solution gives slope 0
when the centred design column is identically zero), and recover the
intercept from the means.  An empty sample raises (`ValueError` in
sklearn), modelled as `Except.error`.  Returns `(slope, intercept)`. -/
def linFit (data : List (ℚ × ℚ)) : Except Unit (ℚ × ℚ) :=
  match data with
  | [] => Except.error ()
  | _ :: _ =>
    let n : ℚ := data.length
    let mx := ((data.map Prod.fst).sum) / n
    let my := ((data.map Prod.snd).sum) / n
    let sxx := (data.map (fun p => (p.1 - mx) ^ 2)).sum
    let sxy := (data.map (fun p => (p.1 - mx) * (p.2 - my))).sum
    let slope := if sxx = 0 then 0 else sxy / sxx
    Except.ok (slope, my - slope * mx)

/-- Prediction of the fitted model at a feature value, as
`model.predict` computes it. -/
def lrPredict (data : List (ℚ × ℚ)) (x : ℚ) : Except Unit ℚ :=
  match linFit data with
  | Except.error e => Except.error e
  | Except.ok si => Except.ok (si.1 * x + si.2)

/-- Embedding of the deficit-calculation block (source order): fail fast
when the configured efficiency is non-positive, otherwise compute usable
SOC above the minimum, the sunset target, the sunset deficit, the raw
deficit, and finally divide by the efficiency. -/
def computeTotalDeficit (predicted solar socPct minPct sunsetPct cap eff : ℚ) :
    Except Unit ℚ :=
  if eff ≤ 0 then Except.error ()
  else
    let currentSocKwh := socPct / 100 * cap
    let usablePct := max (socPct - minPct) 0
    let usableKwh := usablePct / 100 * cap
    let sunsetTargetKwh := sunsetPct / 100 * cap
    let sunsetDeficitKwh := max (sunsetTargetKwh - currentSocKwh) 0
    Except.ok ((predicted - (solar + usableKwh) + sunsetDeficitKwh) / eff)

/-- The deficit exactly as claim C5 words it, for comparison with the code
embedding. -/
def claimDeficitFormula (predicted solar socPct minPct sunsetPct cap eff : ℚ) : ℚ :=
  (predicted - (solar + max (socPct - minPct) 0 / 100 * cap)
      + max (sunsetPct / 100 * cap - socPct / 100 * cap) 0) / eff

/-- Clamp of the requested charging power against the configured maximum,
as `force_charge_inverter` applies it before any register write. -/
def clampPower (power maxRate : ℕ) : ℕ :=
  if power > maxRate then maxRate else power

/-- Encoding of an (already clamped) charging power into register 40355:
powers below 10 W map to the sentinel 55536, otherwise
`65536 + (-int(power / 10))`.  Computed in ℤ so that an out-of-range
encoding would be visible rather than truncated. -/
def encodePower (power : ℕ) : ℤ :=
  if power < 10 then 55536 else 65536 - ((power : ℤ) / 10)

/-- The register write plan of `force_charge_inverter` (identical in
`full_forecast_and_reccomendation.py` and `simple_battery_test.py`):
charge mode 40348 := 2, charge power 40355 := encoded clamped power,
SOC limit 40350 := 9900. -/
def force_charge_inverter_writes (power maxRate : ℕ) : List (ℕ × ℤ) :=
  [(40348, 2), (40355, encodePower (clampPower power maxRate)), (40350, 9900)]

/-- The register write plan of `reset_inverter_settings`: charge mode
40348 := 0, charge power 40355 := 10000, minimum SOC 40350 := 500,
maximum discharge rate 40356 := 10000. -/
def reset_inverter_settings_writes : List (ℕ × ℤ) :=
  [(40348, 0), (40355, 10000), (40350, 500), (40356, 10000)]

/-- One inverter-facing operation attempted by the decision block. -/
inductive InverterAction
  | forceCharge (rate : ℕ)
  | reset
deriving DecidableEq

/-- Observable outcome of one run of the charge-control decision block:
which inverter operations were attempted, the final in-memory
`currently_charging`, and the values passed to `save_charging_state`
in order. -/
structure ControlOutcome where
  actions : List InverterAction
  newCharging : Bool
  saves : List Bool
deriving DecidableEq

/-- Embedding of the charge-control decision block.  `shouldCharge` is the
run's decision, `prev` the loaded persisted state, `rate` the computed
charge rate, and `forceOk`/`resetOk` the outcomes the device would give to
`force_charge_inverter`/`reset_inverter_settings`.  Mirrors the source: a
start saves true on success and false on failure; a stop calls
`reset_inverter_settings` but ignores its result and always saves false;
the two remaining branches touch neither the inverter nor the file. -/
def chargeControl (shouldCharge prev : Bool) (rate : ℕ)
    (forceOk resetOk : Bool) : ControlOutcome :=
  if shouldCharge && !prev then
    if forceOk then ⟨[InverterAction.forceCharge rate], true, [true]⟩
    else ⟨[InverterAction.forceCharge rate], false, [false]⟩
  else if !shouldCharge && prev then
    ⟨[InverterAction.reset], false, [false]⟩
  else
    ⟨[], prev, []⟩

/-- Abstract content of the charging-state file `/data/charging_state.json`:
absent, unreadable/not-JSON, or a JSON object whose
`currently_charging` key may be present or missing. -/
inductive FileState
  | absent
  | corrupt
  | valid (currentlyCharging : Option Bool)
deriving DecidableEq

/-- Embedding of `load_charging_state`: an absent file, an unreadable file
(JSONDecodeError / IOError) and a JSON object without the key all give
False; otherwise the stored value. -/
def load_charging_state : FileState → Bool
  | FileState.absent => false
  | FileState.corrupt => false
  | FileState.valid none => false
  | FileState.valid (some b) => b

/-- Embedding of `save_charging_state`: the file is opened for writing and
replaced by a JSON object holding the boolean (the previous content is
irrelevant). -/
def save_charging_state (charging : Bool) : FileState :=
  FileState.valid (some charging)

lemma pyRound_of_lt_half (q : ℚ) (f : ℤ) (hle : (f : ℚ) ≤ q)
    (hlt : q - f < 1/2) : pyRound q = f := by
  have hf : ⌊q⌋ = f := Int.floor_eq_iff.mpr ⟨hle, by linarith⟩
  simp only [pyRound, hf]
  rw [if_pos hlt]

lemma pyRound_intCast (n : ℤ) : pyRound (n : ℚ) = n := by
  apply pyRound_of_lt_half <;> norm_num

lemma pyRound_zero : pyRound 0 = 0 := by
  have h := pyRound_intCast 0
  norm_num at h
  exact h

lemma pyRound_q500 : pyRound (500 : ℚ) = 500 := by
  apply pyRound_of_lt_half <;> norm_num

/-- Sanity anchor for the embedding: the other scenario of the spec
(deficit 3 kWh, window 23:00→06:00, current 23:30) gives
round(3000/5.5) = 545 W, exactly as both spec and code agree. -/
lemma calculate_charge_rate_2330 : calculate_charge_rate 3 1380 360 1410 = 545 := by
  have h : pyRound (6000/11 : ℚ) = 545 := by
    apply pyRound_of_lt_half <;> norm_num
  norm_num [calculate_charge_rate]
  rw [h]
  decide

lemma contribsAux_append (prev : Reading) (xs ys : List Reading) :
    contribsAux prev (xs ++ ys) =
      contribsAux prev xs ++ contribsAux (lastOr prev xs) ys := by
  induction xs generalizing prev with
  | nil => simp [contribsAux, lastOr]
  | cons x xs ih => simp [contribsAux, lastOr, ih x]

lemma filter_contribsAux_eq_nil (prev : Reading) (ys : List Reading) (d : ℤ)
    (h : ∀ r ∈ ys, dateOf r ≠ d) :
    (contribsAux prev ys).filter (fun p => p.1 == d) = [] := by
  induction ys generalizing prev with
  | nil => simp [contribsAux]
  | cons y ys ih =>
    simp only [contribsAux, List.filter_cons]
    have hy : (dateOf y == d) = false := by
      simpa using h y (by simp)
    simp only [hy, Bool.false_eq_true, if_false]
    exact ih y (fun r hr => h r (by simp [hr]))

lemma dateOf_82800 : dateOf ⟨82800, 100⟩ = 0 := by
  have h : ⌊(82800 : ℚ) / 86400⌋ = 0 := by
    rw [Int.floor_eq_iff]
    norm_num
  simpa [dateOf] using h

lemma dateOf_90000 : dateOf ⟨90000, 100⟩ = 1 := by
  have h : ⌊(90000 : ℚ) / 86400⌋ = 1 := by
    rw [Int.floor_eq_iff]
    norm_num
  simpa [dateOf] using h

/-- Claim C2 counterexample: at deficit 3.0 kWh, window 23:00→06:00
(minutes 1380→360) and current wall-clock time 05:45 (minute 345),
`calculate_charge_rate` does NOT return 12000 W as the claim states. -/
theorem C2_counterexample : calculate_charge_rate 3 1380 360 345 ≠ 12000 := by
  norm_num [calculate_charge_rate]
  rw [pyRound_q500]
  decide

/-- Claim C2 (amended): at deficit 3.0 kWh, window 23:00→06:00 and current
time 05:45, the code anchors the window start to the current date, so 05:45
counts as *before* tonight's 23:00 start; the full 7-hour window applies,
the 1-hour safety margin is kept (6 h remain ≥ 1 h), and the returned rate
is round(3000/6) = 500 W — the margin-dropping 12000 W path is not taken. -/
theorem C2_rate_at_0545 : calculate_charge_rate 3 1380 360 345 = 500 := by
  norm_num [calculate_charge_rate]
  rw [pyRound_q500]
  decide

/-- Claim C8 counterexample: with a positive deficit (3 kWh) and a
midnight-spanning window 23:00→06:00, a current time equal to the window
end (06:00, minute 360) does NOT give rate 0: the code rolls the window to
its next occurrence tonight and returns the full-window rate 500 W. -/
theorem C8_counterexample : calculate_charge_rate 3 1380 360 360 ≠ 0 := by
  norm_num [calculate_charge_rate]
  rw [pyRound_q500]
  decide

/-- Claim C8 (amended): a deficit of 0 yields rate 0 for every window and
current time; and for a positive deficit, a current time equal to the
window end yields rate 0 for every *same-day* window (start ≤ end).  For
midnight-spanning windows (end < start) the code instead interprets the
moment `current = end` as before the next occurrence of the window and
returns a full-window rate (see the counterexample). -/
theorem C8_rate_zero (d : ℚ) (ws we : ℕ) (cur : ℚ) :
    calculate_charge_rate 0 ws we cur = 0 ∧
    (0 < d → ws ≤ we → calculate_charge_rate d ws we (we : ℚ) = 0) := by
  constructor
  · simp only [calculate_charge_rate, zero_mul, zero_div]
    split_ifs <;> simp [pyRound_zero]
  · intro _ hw
    have hq : (ws : ℚ) ≤ (we : ℚ) := by exact_mod_cast hw
    simp only [calculate_charge_rate]
    split_ifs <;> first | rfl | linarith

/-- Witness for C8_rate_zero at concrete inputs. -/
theorem C8_witness :
    calculate_charge_rate 0 1380 360 345 = 0 ∧
    (0 : ℚ) < 3 ∧ (60 : ℕ) ≤ 120 ∧ calculate_charge_rate 3 60 120 120 = 0 :=
  ⟨(C8_rate_zero 3 1380 360 345).1, by norm_num, by norm_num,
    (C8_rate_zero 3 60 120 120).2 (by norm_num) (by norm_num)⟩

/-- Claim C4 (amended): the per-day integrated energy for date `d` never
includes a contribution from the gap following that date's last reading:
appending any readings of strictly later dates (in particular the next
date's readings, whose first pandas `diff` row spans the cross-midnight
gap) leaves the date-`d` bucket unchanged.  The gap is *not* lost,
however: it is integrated into the NEXT reading's date bucket, so the
claim's "contributes zero energy to any date bucket" clause is false
(see the counterexample). -/
theorem C4_no_gap_into_day (xs ys : List Reading) (d : ℤ)
    (h : ∀ r ∈ ys, d < dateOf r) :
    dailyEnergy (xs ++ ys) d = dailyEnergy xs d := by
  have hne : ∀ r ∈ ys, dateOf r ≠ d := fun r hr => ne_of_gt (h r hr)
  cases xs with
  | nil =>
    simp only [List.nil_append, dailyEnergy]
    cases ys with
    | nil => rfl
    | cons y ys2 =>
      simp only [energyContribs, List.filter_cons]
      have hy : (dateOf y == d) = false := by
        simpa using hne y (by simp)
      simp only [hy, Bool.false_eq_true, if_false]
      rw [filter_contribsAux_eq_nil y ys2 d (fun r hr => hne r (by simp [hr]))]
      rfl
  | cons x xs2 =>
    simp only [List.cons_append, dailyEnergy, energyContribs, contribsAux_append,
      List.filter_append, List.filter_cons]
    rw [filter_contribsAux_eq_nil _ ys d hne]
    simp

/-- Claim C4 counterexample: a reading of 100 W at 23:00 of day 0 followed
by a reading of 100 W at 01:00 of day 1: the 2-hour cross-midnight gap
contributes 100 × 7200 / 3600 = 200 Wh to day 1's bucket, so the interval
between the last reading of one date and the first reading of the next
does NOT contribute zero energy to every date bucket. -/
theorem C4_counterexample :
    dailyEnergy [⟨82800, 100⟩, ⟨90000, 100⟩] 1 ≠ 0 := by
  simp only [dailyEnergy, energyContribs, contribsAux, List.filter_cons, List.filter_nil,
    dateOf_82800, dateOf_90000]
  norm_num

/-- Witness for C4_no_gap_into_day at a concrete input. -/
theorem C4_witness :
    (∀ r ∈ [(⟨90000, 100⟩ : Reading)], (0 : ℤ) < dateOf r) ∧
    dailyEnergy ([⟨82800, 100⟩] ++ [⟨90000, 100⟩]) 0 = dailyEnergy [⟨82800, 100⟩] 0 := by
  have h : ∀ r ∈ [(⟨90000, 100⟩ : Reading)], (0 : ℤ) < dateOf r := by
    intro r hr
    simp only [List.mem_singleton] at hr
    rw [hr, dateOf_90000]
    norm_num
  exact ⟨h, C4_no_gap_into_day _ _ _ h⟩

/-- Claim C3 counterexample: with exactly one ForecastInput row (fewer than
2), the regression does not fail: it fits and produces the prediction 5000
(the single row's power need) for the next day.  There is no
InsufficientHistory check in the code. -/
theorem C3_counterexample :
    ([((3 : ℚ), (5000 : ℚ))].length < 2) ∧
      lrPredict [(3, 5000)] 4 = Except.ok 5000 := by
  constructor
  · norm_num
  · simp only [lrPredict, linFit, List.map_cons, List.map_nil, List.sum_cons,
      List.sum_nil, List.length_cons, List.length_nil]
    norm_num

/-- Claim C3 (amended): with zero ForecastInput rows the fit raises an
error and the run aborts before any charge decision, but with exactly one
row the scikit-learn regression fits successfully (slope 0, intercept the
row's power need) and predicts that value for any day-of-week — the code
contains no minimum-2-rows / InsufficientHistory guard. -/
theorem C3_single_row_predicts (x y z : ℚ) :
    lrPredict [(x, y)] z = Except.ok y ∧
      lrPredict ([] : List (ℚ × ℚ)) z = Except.error () := by
  constructor
  · simp only [lrPredict, linFit, List.map_cons, List.map_nil, List.sum_cons,
      List.sum_nil, List.length_cons, List.length_nil]
    norm_num
  · rfl

/-- Claim C5: with a valid solar forecast and positive efficiency the
computed total deficit equals the claim's formula, and a non-positive
efficiency fails fast before any division. -/
theorem C5_deficit_formula (predicted solar socPct minPct sunsetPct cap eff : ℚ) :
    (0 < eff →
      computeTotalDeficit predicted solar socPct minPct sunsetPct cap eff =
        Except.ok (claimDeficitFormula predicted solar socPct minPct sunsetPct cap eff)) ∧
    (eff ≤ 0 →
      computeTotalDeficit predicted solar socPct minPct sunsetPct cap eff =
        Except.error ()) := by
  constructor
  · intro h
    rw [computeTotalDeficit, if_neg (by linarith)]
    rfl
  · intro h
    rw [computeTotalDeficit, if_pos h]

/-- Witness for C5_deficit_formula at concrete inputs: 10 kWh predicted
need, 2 kWh solar, SOC 50 % with minimum 20 %, sunset target 30 %, 10 kWh
battery, efficiency 0.95 and, for the fail-fast branch, efficiency 0. -/
theorem C5_witness :
    (0 : ℚ) < 95/100 ∧
    computeTotalDeficit 10 2 50 20 30 10 (95/100) =
      Except.ok (claimDeficitFormula 10 2 50 20 30 10 (95/100)) ∧
    (0 : ℚ) ≤ 0 ∧
    computeTotalDeficit 10 2 50 20 30 10 0 = Except.error () :=
  ⟨by norm_num,
    (C5_deficit_formula 10 2 50 20 30 10 (95/100)).1 (by norm_num),
    le_refl 0,
    (C5_deficit_formula 10 2 50 20 30 10 0).2 (le_refl 0)⟩

/-- Claim C6: for every requested power above the configured maximum, the
write plan encodes exactly the maximum into the charge-power register
40355, never the requested value. -/
theorem C6_clamp_encoded (power maxRate : ℕ) (h : power > maxRate) :
    force_charge_inverter_writes power maxRate =
      [(40348, 2), (40355, encodePower maxRate), (40350, 9900)] := by
  simp [force_charge_inverter_writes, clampPower, if_pos h]

/-- Witness for C6_clamp_encoded: ForcedCharge(9000) with max_rate 5000
encodes 65536 − 500 = 65036, the encoding of 5000, not of 9000. -/
theorem C6_witness :
    9000 > 5000 ∧
      force_charge_inverter_writes 9000 5000 =
        [(40348, 2), (40355, 65036), (40350, 9900)] := by
  refine ⟨by norm_num, ?_⟩
  rw [C6_clamp_encoded 9000 5000 (by norm_num)]
  decide

/-- Claim C10: for every non-negative requested power, if the configured
maximum is at most 655350 W then the value written to register 40355 is in
the unsigned 16-bit range [0, 65535], and equals 55536 when the clamped
power is below 10 W and 65536 − (power / 10) otherwise. -/
theorem C10_register_range (power maxRate : ℕ) (h : maxRate ≤ 655350) :
    0 ≤ encodePower (clampPower power maxRate) ∧
    encodePower (clampPower power maxRate) ≤ 65535 ∧
    encodePower (clampPower power maxRate) =
      (if clampPower power maxRate < 10 then (55536 : ℤ)
        else 65536 - ((clampPower power maxRate : ℤ) / 10)) := by
  have hc : clampPower power maxRate ≤ 655350 := by
    unfold clampPower
    split_ifs with hpm
    · exact h
    · omega
  refine ⟨?_, ?_, ?_⟩
  · unfold encodePower
    split_ifs with h10
    · norm_num
    · have hd : ((clampPower power maxRate : ℤ)) / 10 ≤ 65535 := by
        have hz : (clampPower power maxRate : ℤ) ≤ 655350 := by exact_mod_cast hc
        omega
      omega
  · unfold encodePower
    split_ifs with h10
    · norm_num
    · have h10z : (10 : ℤ) ≤ (clampPower power maxRate : ℤ) := by
        exact_mod_cast Nat.le_of_not_lt h10
      have hd : (1 : ℤ) ≤ (clampPower power maxRate : ℤ) / 10 := by omega
      omega
  · rfl

/-- Witness for C10_register_range at power 9000, max 5000. -/
theorem C10_witness :
    (5000 : ℕ) ≤ 655350 ∧
    0 ≤ encodePower (clampPower 9000 5000) ∧
    encodePower (clampPower 9000 5000) ≤ 65535 :=
  ⟨by norm_num,
    (C10_register_range 9000 5000 (by norm_num)).1,
    (C10_register_range 9000 5000 (by norm_num)).2.1⟩

/-- Claim C1 counterexample: a run that attempts the stop transition
(shouldCharge = false, previously charging) while `reset_inverter_settings`
fails does NOT leave the persisted record unchanged: the code ignores the
failure, flips `currently_charging` to false and rewrites the state file. -/
theorem C1_counterexample :
    ¬ ((chargeControl false true 0 true false).newCharging = true ∧
        (chargeControl false true 0 true false).saves = []) := by
  decide

/-- Claim C1 (amended): after a failed start transition
(`force_charge_inverter` returns false) the stored boolean keeps the value
false it had on entry to the branch, but the state file IS rewritten with
false; and a failed stop transition is ignored entirely: the state is
flipped to false and saved even though `reset_inverter_settings` failed. -/
theorem C1_failed_transition (rate : ℕ) (resetOk : Bool) :
    ((chargeControl true false rate false resetOk).newCharging = false ∧
      (chargeControl true false rate false resetOk).saves = [false]) ∧
    ((chargeControl false true rate true false).newCharging = false ∧
      (chargeControl false true rate true false).saves = [false]) := by
  constructor
  · constructor <;> rfl
  · constructor <;> rfl

/-- Claim C7 counterexample: when the previous state is charging and the
decision is to keep charging, a materially different desired rate (1000 W
here, against any previous rate, e.g. 500 W) triggers NO inverter write:
the already-charging branch of the code does nothing. -/
theorem C7_counterexample :
    (1000 : ℕ) ≠ 500 ∧ (chargeControl true true 1000 true true).actions = [] := by
  decide

/-- Claim C7 (amended): the already-charging branch
(shouldCharge = true, previously charging) performs no inverter register
writes and no state save for every desired rate — the code never re-applies
the forced-charge sequence on a rate change (left as a TODO comment in the
source) — and the in-memory state stays charging. -/
theorem C7_already_charging_noop (rate : ℕ) (forceOk resetOk : Bool) :
    (chargeControl true true rate forceOk resetOk).actions = [] ∧
    (chargeControl true true rate forceOk resetOk).saves = [] ∧
    (chargeControl true true rate forceOk resetOk).newCharging = true := by
  refine ⟨rfl, rfl, rfl⟩

/-- Claim C9: the charging state store round-trips — saving any boolean
and loading returns that boolean — and loading with no prior save (file
absent or unreadable) returns false. -/
theorem C9_roundtrip (b : Bool) :
    load_charging_state (save_charging_state b) = b ∧
    load_charging_state FileState.absent = false ∧
    load_charging_state FileState.corrupt = false := by
  refine ⟨?_, rfl, rfl⟩
  cases b <;> rfl
